import Mathlib

/-!
Verification of the casbin/fasthttp-auth authorization middleware.

The Go package `authz` wraps a Casbin enforcer into a fasthttp middleware.
We give a shallow embedding: a `RequestCtx` carries the request attributes the
package reads (headers, path as delivered by `ctx.Path()`, method as delivered
by `ctx.Method()`) and the response the package writes (status code, content
type, body); handlers are modelled as functions `RequestCtx → RequestCtx`
(fasthttp handlers mutate the ctx in place).  The Casbin enforcer is an
external collaborator: it is modelled as an opaque decision function
`String → String → String → Bool × Option String`, the Go signature
`Enforce(sub, obj, act) (bool, error)` with the error as `Option String`.
-/

namespace Authz

/-- Request attributes read by the package: header map (as delivered by the
transport, first match wins on lookup, `Peek` of an absent key yields the empty
string), the URL path as returned by `ctx.Path()`, and the HTTP method as
returned by `ctx.Method()`. -/
structure Request where
  headers : List (String × String)
  path : String
  method : String
deriving Repr, DecidableEq

/-- Response state written through `SetStatusCode`, `SetContentType`,
`WriteString`.  A fresh fasthttp response has status code 200 and empty body. -/
structure Response where
  statusCode : Nat
  contentType : String
  body : String
deriving Repr, DecidableEq

/-- The per-request context.  `connID` stands for the transport-owned metadata
of a fasthttp `RequestCtx` (connection id, arrival time, ...) that this package
never reads or writes; it lets two separate invocations be distinct values. -/
structure RequestCtx where
  request : Request
  response : Response
  connID : Nat
deriving Repr, DecidableEq

/-- `ctx.Request.Header.Peek(key)` converted to a string: the header value if
present, `""` if absent (Go: `string(nil) = ""`). -/
def Request.peek (req : Request) (key : String) : String :=
  (req.headers.lookup key).getD ""

/-- `ctx.SetStatusCode(code)`. -/
def RequestCtx.setStatusCode (ctx : RequestCtx) (code : Nat) : RequestCtx :=
  { ctx with response := { ctx.response with statusCode := code } }

/-- `ctx.SetContentType(ct)`. -/
def RequestCtx.setContentType (ctx : RequestCtx) (ct : String) : RequestCtx :=
  { ctx with response := { ctx.response with contentType := ct } }

/-- `ctx.WriteString(s)`: appends to the response body. -/
def RequestCtx.writeString (ctx : RequestCtx) (s : String) : RequestCtx :=
  { ctx with response := { ctx.response with body := ctx.response.body ++ s } }

/-- `fasthttp.RequestHandler`, modelled as a state transformer on the ctx. -/
def RequestHandler : Type := RequestCtx → RequestCtx

/-- The external Casbin enforcer handle: an opaque decision function with the
Go signature `Enforce(sub, obj, act) (bool, error)`. -/
structure Enforcer where
  enforce : String → String → String → Bool × Option String

/-- `fasthttp.StatusForbidden`. -/
def statusForbidden : Nat := 403

/-- `fasthttp.StatusInternalServerError`. -/
def statusInternalServerError : Nat := 500

/-- The `Authorizer` struct of `authz.go`. -/
structure Authorizer where
  enforcer : Enforcer
  getSubject : RequestCtx → String
  getObject : RequestCtx → String
  getAction : RequestCtx → String
  forbiddenHandler : RequestHandler

/-- `Option` of `authz.go`: `func(a *Authorizer)`, modelled as a function
returning the updated struct.  (Named `Opt` to avoid clashing with `Option`.) -/
def Opt : Type := Authorizer → Authorizer

/-- `NewAuthorizer`: builds the struct with the default getters and forbidden
handler, then applies the options in order. -/
def NewAuthorizer (enforcer : Enforcer) (opts : List Opt) : Authorizer :=
  let a : Authorizer :=
    { enforcer := enforcer
      getSubject := fun ctx =>
        let subject := ctx.request.peek "X-User"
        if subject = "" then "anonymous" else subject
      getObject := fun ctx => ctx.request.path
      getAction := fun ctx => ctx.request.method
      forbiddenHandler := fun ctx =>
        ((ctx.setStatusCode statusForbidden).setContentType
            "text/plain; charset=utf-8").writeString "Forbidden" }
  opts.foldl (fun a opt => opt a) a

/-- `NewAuthorizerFromFiles`.  `casbin.NewEnforcer(modelPath, policyPath)` is an
external collaborator, so the engine builder is a parameter; Go's
`(*Enforcer, error)` return is modelled as `Except`. -/
def NewAuthorizerFromFiles (newEnforcer : String → String → Except String Enforcer)
    (modelPath policyPath : String) (opts : List Opt) : Except String Authorizer :=
  match newEnforcer modelPath policyPath with
  | .error err => .error err
  | .ok e => .ok (NewAuthorizer e opts)

/-- `(*Authorizer).Middleware`: extract the triple, query the enforcer once,
branch on (error, allowed). -/
def Authorizer.Middleware (a : Authorizer) (next : RequestHandler) : RequestHandler :=
  fun ctx =>
    let subject := a.getSubject ctx
    let object := a.getObject ctx
    let action := a.getAction ctx
    match a.enforcer.enforce subject object action with
    | (_, some _) =>
        ((ctx.setStatusCode statusInternalServerError).setContentType
            "text/plain; charset=utf-8").writeString "Authorization error"
    | (ok, none) =>
        if !ok then a.forbiddenHandler ctx
        else next ctx

/-- `WithSubjectGetter`. -/
def WithSubjectGetter (getter : RequestCtx → String) : Opt :=
  fun a => { a with getSubject := getter }

/-- `WithObjectGetter`. -/
def WithObjectGetter (getter : RequestCtx → String) : Opt :=
  fun a => { a with getObject := getter }

/-- `WithActionGetter`. -/
def WithActionGetter (getter : RequestCtx → String) : Opt :=
  fun a => { a with getAction := getter }

/-- `WithForbiddenHandler`. -/
def WithForbiddenHandler (handler : RequestHandler) : Opt :=
  fun a => { a with forbiddenHandler := handler }

/-- `AuthorizerMiddleware`: convenience helper building middleware directly. -/
def AuthorizerMiddleware (enforcer : Enforcer) (opts : List Opt) :
    RequestHandler → RequestHandler :=
  (NewAuthorizer enforcer opts).Middleware

/-- The three-way decision outcome of one middleware run (spec §3): which of
the three branches of `Middleware` fires for a given ctx. -/
inductive Outcome where
  | allowed
  | denied
  | engineError
deriving Repr, DecidableEq

/-- Which branch of `Middleware` runs on `ctx`: mirrors the branch structure of
`Middleware` without executing the terminal action. -/
def Authorizer.decision (a : Authorizer) (ctx : RequestCtx) : Outcome :=
  match a.enforcer.enforce (a.getSubject ctx) (a.getObject ctx) (a.getAction ctx) with
  | (_, some _) => .engineError
  | (ok, none) => if !ok then .denied else .allowed

end Authz

namespace Authz

/-- Claim C2: whenever the enforcer returns `(true, nil)` for the derived
triple, the middleware invokes the next handler exactly once on the original,
unmodified ctx and writes nothing itself: the result is exactly `next ctx`,
for every next handler. -/
theorem middleware_allowed_invokes_next (a : Authorizer) (ctx : RequestCtx)
    (h : a.enforcer.enforce (a.getSubject ctx) (a.getObject ctx) (a.getAction ctx)
          = (true, none)) :
    ∀ next : RequestHandler, a.Middleware next ctx = next ctx := by
  intro next
  simp [Authorizer.Middleware, h]

/-- An enforcer that allows every triple. -/
def allowAllEnforcer : Enforcer := ⟨fun _ _ _ => (true, none)⟩

/-- An enforcer that denies every triple with no error. -/
def denyAllEnforcer : Enforcer := ⟨fun _ _ _ => (false, none)⟩

/-- An enforcer whose query always fails with an evaluation error. -/
def errorEnforcer : Enforcer := ⟨fun _ _ _ => (false, some "evaluation fault")⟩

/-- A sample request: identity header `alice`, path `/`, method `GET`. -/
def sampleRequest : Request := ⟨[("X-User", "alice")], "/", "GET"⟩

/-- A fresh fasthttp response: status 200, empty body. -/
def freshResponse : Response := ⟨200, "", ""⟩

/-- A fresh ctx for the sample request. -/
def sampleCtx : RequestCtx := ⟨sampleRequest, freshResponse, 0⟩

/-- A downstream handler that writes a recognizable body. -/
def okHandler : RequestHandler := fun ctx => ctx.writeString "hello"

/-- A custom rejection handler writing status 418 and body `nope`
(test `TestMiddleware_CustomForbiddenHandler`). -/
def teapotHandler : RequestHandler := fun ctx =>
  (ctx.setStatusCode 418).writeString "nope"

/-- Witness for C2 at a concrete input: with an allow-all enforcer the
middleware output is exactly the next handler's output. -/
theorem middleware_allowed_invokes_next_witness :
    (NewAuthorizer allowAllEnforcer []).Middleware okHandler sampleCtx
      = okHandler sampleCtx :=
  middleware_allowed_invokes_next (NewAuthorizer allowAllEnforcer []) sampleCtx
    rfl okHandler

/-- Claim C1: whenever the enforcer's query returns a non-nil error, whatever
the boolean alongside it, the middleware writes the fixed fail-closed response
(status 500, in the server-error class; plain-text content type; body
`Authorization error`, non-empty and distinct from the default `Forbidden`
body) and invokes neither the next handler (the output is one fixed value for
every next handler) nor the configured rejection handler (replacing the
rejection handler does not change the output). -/
theorem middleware_error_fail_closed (a : Authorizer) (ctx : RequestCtx)
    (b : Bool) (e : String)
    (h : a.enforcer.enforce (a.getSubject ctx) (a.getObject ctx) (a.getAction ctx)
          = (b, some e)) :
    ∀ next : RequestHandler,
      a.Middleware next ctx =
        ((ctx.setStatusCode statusInternalServerError).setContentType
            "text/plain; charset=utf-8").writeString "Authorization error"
      ∧ 500 ≤ (a.Middleware next ctx).response.statusCode
      ∧ (a.Middleware next ctx).response.statusCode < 600
      ∧ (a.Middleware next ctx).response.contentType = "text/plain; charset=utf-8"
      ∧ (ctx.response.body = "" →
          (a.Middleware next ctx).response.body = "Authorization error"
          ∧ (a.Middleware next ctx).response.body ≠ ""
          ∧ (a.Middleware next ctx).response.body ≠ "Forbidden")
      ∧ ∀ fh : RequestHandler,
          Authorizer.Middleware { a with forbiddenHandler := fh } next ctx
            = a.Middleware next ctx := by
  intro next
  have hM : a.Middleware next ctx =
      ((ctx.setStatusCode statusInternalServerError).setContentType
          "text/plain; charset=utf-8").writeString "Authorization error" := by
    simp [Authorizer.Middleware, h]
  refine ⟨hM, ?_, ?_, ?_, ?_, ?_⟩
  · rw [hM]
    simp [RequestCtx.setStatusCode, RequestCtx.setContentType, RequestCtx.writeString,
      statusInternalServerError]
  · rw [hM]
    simp [RequestCtx.setStatusCode, RequestCtx.setContentType, RequestCtx.writeString,
      statusInternalServerError]
  · rw [hM]
    simp [RequestCtx.setStatusCode, RequestCtx.setContentType, RequestCtx.writeString]
  · intro hbody
    rw [hM]
    simp [RequestCtx.setStatusCode, RequestCtx.setContentType, RequestCtx.writeString, hbody]
  · intro fh
    rw [hM]
    simp [Authorizer.Middleware, h]

/-- Witness for C1 at a concrete input: an erroring enforcer on the sample
request yields status 500, plain-text content type, body `Authorization
error`, and swapping the rejection handler changes nothing. -/
theorem middleware_error_fail_closed_witness :
    (NewAuthorizer errorEnforcer []).Middleware okHandler sampleCtx
      = ((sampleCtx.setStatusCode statusInternalServerError).setContentType
          "text/plain; charset=utf-8").writeString "Authorization error"
    ∧ 500 ≤ ((NewAuthorizer errorEnforcer []).Middleware okHandler sampleCtx).response.statusCode
    ∧ ((NewAuthorizer errorEnforcer []).Middleware okHandler sampleCtx).response.statusCode < 600
    ∧ ((NewAuthorizer errorEnforcer []).Middleware okHandler sampleCtx).response.contentType
        = "text/plain; charset=utf-8"
    ∧ (sampleCtx.response.body = "" →
        ((NewAuthorizer errorEnforcer []).Middleware okHandler sampleCtx).response.body
            = "Authorization error"
        ∧ ((NewAuthorizer errorEnforcer []).Middleware okHandler sampleCtx).response.body ≠ ""
        ∧ ((NewAuthorizer errorEnforcer []).Middleware okHandler sampleCtx).response.body
            ≠ "Forbidden")
    ∧ ∀ fh : RequestHandler,
        Authorizer.Middleware { NewAuthorizer errorEnforcer [] with forbiddenHandler := fh }
            okHandler sampleCtx
          = (NewAuthorizer errorEnforcer []).Middleware okHandler sampleCtx :=
  middleware_error_fail_closed (NewAuthorizer errorEnforcer []) sampleCtx
    false "evaluation fault" rfl okHandler

/-- Claim C3: whenever the enforcer returns `(false, nil)`, the next handler is
never invoked and the configured rejection handler runs on the ctx, its output
observed verbatim: the middleware result is exactly the rejection handler's
result, for every next handler. -/
theorem middleware_denied_runs_forbidden_handler (a : Authorizer) (ctx : RequestCtx)
    (h : a.enforcer.enforce (a.getSubject ctx) (a.getObject ctx) (a.getAction ctx)
          = (false, none)) :
    ∀ next : RequestHandler, a.Middleware next ctx = a.forbiddenHandler ctx := by
  intro next
  simp [Authorizer.Middleware, h]

/-- Witness for C3 at a concrete input: a custom rejection handler writing
status 418 and body `nope` yields exactly status 418 and body `nope` on a
denied request. -/
theorem middleware_denied_runs_forbidden_handler_witness :
    (NewAuthorizer denyAllEnforcer [WithForbiddenHandler teapotHandler]).Middleware
        okHandler sampleCtx
      = (NewAuthorizer denyAllEnforcer [WithForbiddenHandler teapotHandler]).forbiddenHandler
          sampleCtx
    ∧ ((NewAuthorizer denyAllEnforcer [WithForbiddenHandler teapotHandler]).Middleware
          okHandler sampleCtx).response.statusCode = 418
    ∧ ((NewAuthorizer denyAllEnforcer [WithForbiddenHandler teapotHandler]).Middleware
          okHandler sampleCtx).response.body = "nope" :=
  ⟨middleware_denied_runs_forbidden_handler
      (NewAuthorizer denyAllEnforcer [WithForbiddenHandler teapotHandler]) sampleCtx
      rfl okHandler,
    rfl, rfl⟩

/-- Helper: one middleware run is fully described by its decision outcome.
Shared by the trichotomy and idempotence developments. -/
theorem Authorizer.middleware_branches (a : Authorizer) (next : RequestHandler)
    (ctx : RequestCtx) :
    a.Middleware next ctx =
      match a.decision ctx with
      | .allowed => next ctx
      | .denied => a.forbiddenHandler ctx
      | .engineError =>
          ((ctx.setStatusCode statusInternalServerError).setContentType
              "text/plain; charset=utf-8").writeString "Authorization error" := by
  rcases henf : a.enforcer.enforce (a.getSubject ctx) (a.getObject ctx) (a.getAction ctx)
    with ⟨ok, err⟩
  cases err with
  | some e => simp [Authorizer.Middleware, Authorizer.decision, henf]
  | none => cases ok <;> simp [Authorizer.Middleware, Authorizer.decision, henf]

/-- Claim C4: for every request exactly one of the three decision outcomes
holds, and the middleware's output is fully determined by that outcome: the
next handler's output when allowed, the rejection handler's output when
denied, the fixed error write on an engine error — mutually exclusive,
collectively exhaustive, with no other observable output. -/
theorem middleware_terminal_trichotomy (a : Authorizer) (ctx : RequestCtx) :
    ((a.decision ctx = .allowed ∧ a.decision ctx ≠ .denied ∧ a.decision ctx ≠ .engineError)
      ∨ (a.decision ctx ≠ .allowed ∧ a.decision ctx = .denied ∧ a.decision ctx ≠ .engineError)
      ∨ (a.decision ctx ≠ .allowed ∧ a.decision ctx ≠ .denied ∧ a.decision ctx = .engineError))
    ∧ ∀ next : RequestHandler,
        a.Middleware next ctx =
          match a.decision ctx with
          | .allowed => next ctx
          | .denied => a.forbiddenHandler ctx
          | .engineError =>
              ((ctx.setStatusCode statusInternalServerError).setContentType
                  "text/plain; charset=utf-8").writeString "Authorization error" := by
  constructor
  · cases h : a.decision ctx
    · exact Or.inl ⟨rfl, by simp [h], by simp [h]⟩
    · exact Or.inr (Or.inl ⟨by simp [h], rfl, by simp [h]⟩)
    · exact Or.inr (Or.inr ⟨by simp [h], by simp [h], rfl⟩)
  · intro next
    exact a.middleware_branches next ctx

/-- Claim C5: the default subject extractor yields `anonymous` when the
`X-User` header is absent or present with an empty value, yields the header
value verbatim when present and non-empty, and is a total function (it never
fails). -/
theorem default_subject_getter_spec (e : Enforcer) (ctx : RequestCtx) :
    ((ctx.request.headers.lookup "X-User" = none
        ∨ ctx.request.headers.lookup "X-User" = some "") →
      (NewAuthorizer e []).getSubject ctx = "anonymous")
    ∧ ∀ v : String, v ≠ "" → ctx.request.headers.lookup "X-User" = some v →
        (NewAuthorizer e []).getSubject ctx = v := by
  constructor
  · rintro (h | h) <;> simp [NewAuthorizer, Request.peek, h]
  · intro v hv h
    simp [NewAuthorizer, Request.peek, h, hv]

/-- Witness for C5 at concrete inputs: the header value `alice` is returned
verbatim. -/
theorem default_subject_getter_spec_witness :
    (NewAuthorizer denyAllEnforcer []).getSubject sampleCtx = "alice" :=
  (default_subject_getter_spec denyAllEnforcer sampleCtx).2 "alice" (by decide) rfl

/-- Claim C6: the default object extractor returns the request's URL path
(the path as delivered by the transport's `ctx.Path()`) exactly, applying no
transformation of its own — no normalization, no trailing-slash collapsing. -/
theorem default_object_getter_raw_path (e : Enforcer) (ctx : RequestCtx) :
    (NewAuthorizer e []).getObject ctx = ctx.request.path := rfl

/-- Claim C7: with the default configuration, two invocations on contexts with
identical request attributes and identical initial response state (they may be
distinct ctx objects, differing in transport metadata), against the unchanged
enforcer, take the same terminal action; on the deny and error branches the
written status and body coincide, and on the allow branch both runs hand the
untouched ctx to the next handler. -/
theorem middleware_idempotent_default (e : Enforcer) (ctx₁ ctx₂ : RequestCtx)
    (hreq : ctx₁.request = ctx₂.request) (hresp : ctx₁.response = ctx₂.response) :
    (NewAuthorizer e []).decision ctx₁ = (NewAuthorizer e []).decision ctx₂
    ∧ ((NewAuthorizer e []).decision ctx₁ ≠ .allowed →
        ∀ next : RequestHandler,
          ((NewAuthorizer e []).Middleware next ctx₁).response
            = ((NewAuthorizer e []).Middleware next ctx₂).response)
    ∧ ((NewAuthorizer e []).decision ctx₁ = .allowed →
        ∀ next : RequestHandler,
          (NewAuthorizer e []).Middleware next ctx₁ = next ctx₁
          ∧ (NewAuthorizer e []).Middleware next ctx₂ = next ctx₂) := by
  obtain ⟨r₁, p₁, c₁⟩ := ctx₁
  obtain ⟨r₂, p₂, c₂⟩ := ctx₂
  simp only at hreq hresp
  subst hreq
  subst hresp
  have hdec : (NewAuthorizer e []).decision ⟨r₁, p₁, c₁⟩
      = (NewAuthorizer e []).decision ⟨r₁, p₁, c₂⟩ := rfl
  refine ⟨hdec, ?_, ?_⟩
  · intro hne next
    rw [Authorizer.middleware_branches, Authorizer.middleware_branches, ← hdec]
    cases h : (NewAuthorizer e []).decision ⟨r₁, p₁, c₁⟩
    · exact absurd h hne
    · rfl
    · rfl
  · intro hall next
    rw [Authorizer.middleware_branches, Authorizer.middleware_branches, ← hdec, hall]
    exact ⟨rfl, rfl⟩

/-- A second fresh ctx for the same request, distinct transport metadata. -/
def sampleCtxSecond : RequestCtx := ⟨sampleRequest, freshResponse, 1⟩

/-- Witness for C7 at a concrete input: the deny-all enforcer produces the
same decision and the same written response on two distinct ctx objects
carrying identical request attributes. -/
theorem middleware_idempotent_default_witness :
    (NewAuthorizer denyAllEnforcer []).decision sampleCtx
        = (NewAuthorizer denyAllEnforcer []).decision sampleCtxSecond
    ∧ ((NewAuthorizer denyAllEnforcer []).Middleware okHandler sampleCtx).response
        = ((NewAuthorizer denyAllEnforcer []).Middleware okHandler sampleCtxSecond).response := by
  obtain ⟨h₁, h₂, _⟩ :=
    middleware_idempotent_default denyAllEnforcer sampleCtx sampleCtxSecond rfl rfl
  exact ⟨h₁, h₂ (by decide) okHandler⟩

/-- Claim C8: when the engine builder fails on the given model/policy paths,
`NewAuthorizerFromFiles` propagates that exact error and produces no
authorizer; when the builder succeeds, it returns the authorizer built from
the resulting enforcer and the supplied options, with no error. -/
theorem new_authorizer_from_files_propagates
    (newEnf : String → String → Except String Enforcer)
    (modelPath policyPath : String) (opts : List Opt) :
    (∀ err : String, newEnf modelPath policyPath = .error err →
        NewAuthorizerFromFiles newEnf modelPath policyPath opts = .error err)
    ∧ ∀ e : Enforcer, newEnf modelPath policyPath = .ok e →
        NewAuthorizerFromFiles newEnf modelPath policyPath opts
          = .ok (NewAuthorizer e opts) := by
  constructor
  · intro err h
    simp [NewAuthorizerFromFiles, h]
  · intro e h
    simp [NewAuthorizerFromFiles, h]

/-- An engine builder that always fails, as on a missing policy file. -/
def failingBuilder : String → String → Except String Enforcer :=
  fun _ _ => .error "missing file"

/-- An engine builder that always succeeds with the deny-all enforcer. -/
def okBuilder : String → String → Except String Enforcer :=
  fun _ _ => .ok denyAllEnforcer

/-- Witness for C8 at concrete inputs: a failing builder's error is propagated
verbatim; a succeeding builder yields the constructed authorizer. -/
theorem new_authorizer_from_files_propagates_witness :
    NewAuthorizerFromFiles failingBuilder "authz_model.conf" "authz_policy.csv" []
        = .error "missing file"
    ∧ NewAuthorizerFromFiles okBuilder "authz_model.conf" "authz_policy.csv" []
        = .ok (NewAuthorizer denyAllEnforcer []) :=
  ⟨(new_authorizer_from_files_propagates failingBuilder "authz_model.conf"
      "authz_policy.csv" []).1 "missing file" rfl,
    (new_authorizer_from_files_propagates okBuilder "authz_model.conf"
      "authz_policy.csv" []).2 denyAllEnforcer rfl⟩

/-- Claim C9: each of the four configuration slots is independently
overridable: supplying exactly one override option replaces that slot and
leaves the other three slots equal to the defaults of an option-free
construction. -/
theorem options_override_independently (e : Enforcer)
    (sg og ag : RequestCtx → String) (fh : RequestHandler) :
    ((NewAuthorizer e [WithSubjectGetter sg]).getSubject = sg
      ∧ (NewAuthorizer e [WithSubjectGetter sg]).getObject = (NewAuthorizer e []).getObject
      ∧ (NewAuthorizer e [WithSubjectGetter sg]).getAction = (NewAuthorizer e []).getAction
      ∧ (NewAuthorizer e [WithSubjectGetter sg]).forbiddenHandler
          = (NewAuthorizer e []).forbiddenHandler)
    ∧ ((NewAuthorizer e [WithObjectGetter og]).getObject = og
      ∧ (NewAuthorizer e [WithObjectGetter og]).getSubject = (NewAuthorizer e []).getSubject
      ∧ (NewAuthorizer e [WithObjectGetter og]).getAction = (NewAuthorizer e []).getAction
      ∧ (NewAuthorizer e [WithObjectGetter og]).forbiddenHandler
          = (NewAuthorizer e []).forbiddenHandler)
    ∧ ((NewAuthorizer e [WithActionGetter ag]).getAction = ag
      ∧ (NewAuthorizer e [WithActionGetter ag]).getSubject = (NewAuthorizer e []).getSubject
      ∧ (NewAuthorizer e [WithActionGetter ag]).getObject = (NewAuthorizer e []).getObject
      ∧ (NewAuthorizer e [WithActionGetter ag]).forbiddenHandler
          = (NewAuthorizer e []).forbiddenHandler)
    ∧ ((NewAuthorizer e [WithForbiddenHandler fh]).forbiddenHandler = fh
      ∧ (NewAuthorizer e [WithForbiddenHandler fh]).getSubject
          = (NewAuthorizer e []).getSubject
      ∧ (NewAuthorizer e [WithForbiddenHandler fh]).getObject
          = (NewAuthorizer e []).getObject
      ∧ (NewAuthorizer e [WithForbiddenHandler fh]).getAction
          = (NewAuthorizer e []).getAction) :=
  ⟨⟨rfl, rfl, rfl, rfl⟩, ⟨rfl, rfl, rfl, rfl⟩, ⟨rfl, rfl, rfl, rfl⟩, ⟨rfl, rfl, rfl, rfl⟩⟩

/-- Claim C10: options are applied sequentially in the order supplied, so for
every prefix of options, an override appearing last determines the slot's
value used thereafter — last-wins semantics for each of the four slots. -/
theorem options_last_wins (e : Enforcer) (opts : List Opt)
    (sg og ag : RequestCtx → String) (fh : RequestHandler) :
    (NewAuthorizer e (opts ++ [WithSubjectGetter sg])).getSubject = sg
    ∧ (NewAuthorizer e (opts ++ [WithObjectGetter og])).getObject = og
    ∧ (NewAuthorizer e (opts ++ [WithActionGetter ag])).getAction = ag
    ∧ (NewAuthorizer e (opts ++ [WithForbiddenHandler fh])).forbiddenHandler = fh := by
  refine ⟨?_, ?_, ?_, ?_⟩ <;>
    simp [NewAuthorizer, List.foldl_append, WithSubjectGetter, WithObjectGetter,
      WithActionGetter, WithForbiddenHandler]

end Authz
